import Mathlib

/-!
Verification of the planner_v2 plan execution engine.

The definitions below are a shallow embedding of the repository code:

* src/rfsn_controller/planner_v2/planner.py      (PlannerV2: next_step, update_state, revise_plan, is_complete)
* src/rfsn_controller/planner_v2/artifact_log.py (StepArtifact, PlanArtifact, PlanArtifactLog)

The schema and lifecycle modules (schema.py, lifecycle.py) are imported by
planner.py but are not part of the provided sources; the corresponding
definitions are modelled from the specification and are marked as such.
Python mutates the Step / Plan / PlanState objects in place; the embedding
passes the state explicitly and returns the updated values.  External
library calls (json.dumps, hashlib.sha256, datetime.now) are modelled as
explicit function or string parameters.  Lifecycle transitions outside
their preconditions are programming errors that fail loudly; they are
modelled with the Except monad.
-/

namespace RFSN

/-- JSON-like values, modelling the Python dict / list / scalar payloads
that flow through the engine (controller task specs, outcome payloads,
artifact dictionaries). -/
inductive JValue where
  | null : JValue
  | bool : Bool → JValue
  | num : Int → JValue
  | str : String → JValue
  | arr : List JValue → JValue
  | obj : List (String × JValue) → JValue

/-- Dictionary lookup on an object value: data[key] on a Python dict,
none when the key is absent or the value is not a dict. -/
def JValue.get (j : JValue) (key : String) : Option JValue :=
  match j with
  | .obj fields => (fields.find? (fun kv => kv.1 == key)).map (fun kv => kv.2)
  | _ => none

/-- Modelled from the spec: step status enumeration of the data model,
with the states of the lifecycle state machine
(PENDING, ACTIVE, DONE, FAILED, SKIPPED).  schema.py is not in the
provided sources. -/
inductive StepStatus where
  | PENDING : StepStatus
  | ACTIVE : StepStatus
  | DONE : StepStatus
  | FAILED : StepStatus
  | SKIPPED : StepStatus
deriving DecidableEq, Repr

/-- Modelled from the spec: risk level enumeration (LOW, MED, HIGH).
schema.py is not in the provided sources. -/
inductive RiskLevel where
  | LOW : RiskLevel
  | MED : RiskLevel
  | HIGH : RiskLevel
deriving DecidableEq, Repr

/-- Modelled from the spec: a Step is an atomic unit of work with an
identifier, dependency list, risk level, mutable status, a failure
counter and captured outcome metadata.  schema.py is not in the
provided sources; the fields follow section 3 of the specification and
the constructor calls in planner.py. -/
structure Step where
  step_id : String
  title : String := ""
  intent : String := ""
  allowed_files : List String := []
  success_criteria : String := ""
  dependencies : List String := []
  verify : String := ""
  risk_level : RiskLevel := .LOW
  rollback_hint : String := ""
  controller_task_spec : JValue := .obj []
  status : StepStatus := .PENDING
  failure_count : Nat := 0
  last_error : Option String := none
  skip_reason : Option String := none
  outcome_payload : Option JValue := none

/-- Modelled from the spec: a Plan is an ordered list of steps plus
metadata; version is incremented on every revision.  schema.py is not in
the provided sources. -/
structure Plan where
  plan_id : String
  goal : String := ""
  steps : List Step
  version : Nat := 1
  created_at : String := ""
  assumptions : List String := []
  constraints : List String := []

/-- Modelled from the spec and the calls in planner.py: plan.get_step
resolves a step id to its step (the first step carrying that id), none
when absent. -/
def Plan.get_step (plan : Plan) (step_id : String) : Option Step :=
  plan.steps.find? (fun s => s.step_id == step_id)

/-- Modelled from the spec and the calls in planner.py:
plan.get_step_index returns the list index of the step with the given
id (the index of the first match). -/
def Plan.get_step_index (plan : Plan) (step_id : String) : Nat :=
  plan.steps.findIdx (fun s => s.step_id == step_id)

/-- In-place mutation of the step object resolved by get_step, embedded
as replacing the first step carrying the id. -/
def Plan.set_step (plan : Plan) (step_id : String) (s2 : Step) : Plan :=
  { plan with steps := plan.steps.set (plan.get_step_index step_id) s2 }

/-- Modelled from the spec: PlanState is the mutable execution state of a
run.  schema.py is not in the provided sources; the fields follow
section 3 of the specification. -/
structure PlanState where
  current_step_idx : Nat := 0
  completed_steps : List String := []
  failed_steps : List String := []
  consecutive_failures : Nat := 0
  revision_count : Nat := 0
  halted : Bool := false
  halt_reason : Option String := none

/-- Modelled from the spec: the inbound message from the executor.
schema.py is not in the provided sources. -/
structure ControllerOutcome where
  step_id : String
  success : Bool
  error_message : Option String := none
  result_payload : JValue := .obj []

/-- Modelled from the spec: outcome.to_dict, the serialized form stored
as the completed step outcome payload. -/
def ControllerOutcome.to_dict (o : ControllerOutcome) : JValue :=
  .obj [("step_id", .str o.step_id),
        ("success", .bool o.success),
        ("error_message", (o.error_message.map JValue.str).getD .null),
        ("result_payload", o.result_payload)]

/-- Modelled from the spec: the outbound message handed to the executor
(step id, opaque payload, allowed files, verify command).  schema.py is
not in the provided sources. -/
structure ControllerTaskSpec where
  step_id : String
  controller_task_spec : JValue := .obj []
  allowed_files : List String := []
  verify : String := ""

/-- Modelled from the spec: spec.to_dict serialization of a task spec. -/
def ControllerTaskSpec.to_dict (t : ControllerTaskSpec) : JValue :=
  .obj [("step_id", .str t.step_id),
        ("controller_task_spec", t.controller_task_spec),
        ("allowed_files", .arr (t.allowed_files.map JValue.str)),
        ("verify", .str t.verify)]

namespace StepLifecycle

/-- Whether a dependency id resolves to a step whose status is DONE. -/
def dep_done (plan : Plan) (dep : String) : Bool :=
  match plan.get_step dep with
  | some s => s.status == .DONE
  | none => false

/-- Modelled from the spec: can_activate(step, plan) is true iff the
status is PENDING and every id in dependencies resolves to a step whose
status is DONE (a SKIPPED dependency does not satisfy the
precondition).  lifecycle.py is not in the provided sources. -/
def can_activate (step : Step) (plan : Plan) : Bool × String :=
  if step.status != .PENDING then
    (false, "step is not PENDING")
  else if step.dependencies.all (dep_done plan) then
    (true, "")
  else
    (false, "unsatisfied dependencies")

/-- Modelled from the spec: activate(step) requires can_activate and sets
the status to ACTIVE; a transition outside the precondition fails
loudly.  lifecycle.py is not in the provided sources. -/
def activate (step : Step) (plan : Plan) : Except String Step :=
  if (can_activate step plan).1 then
    .ok { step with status := .ACTIVE }
  else
    .error "activate requires can_activate"

/-- Modelled from the spec: complete(step, payload) requires status
ACTIVE, sets DONE and stores the outcome payload.  lifecycle.py is not
in the provided sources. -/
def complete (step : Step) (payload : JValue) : Except String Step :=
  if step.status == .ACTIVE then
    .ok { step with status := .DONE, outcome_payload := some payload }
  else
    .error "complete requires ACTIVE"

/-- Modelled from the spec: fail(step, error_message) requires status
ACTIVE, increments failure_count, sets FAILED, and returns whether the
failure count is below the fixed retry ceiling of 2.  lifecycle.py is
not in the provided sources. -/
def fail (step : Step) (error_message : String) : Except String (Step × Bool) :=
  if step.status == .ACTIVE then
    .ok ({ step with status := .FAILED,
                     failure_count := step.failure_count + 1,
                     last_error := some error_message },
         decide (step.failure_count + 1 < 2))
  else
    .error "fail requires ACTIVE"

/-- Modelled from the spec: reset_for_retry(step) requires status FAILED
with retries remaining, and sets the status back to PENDING without
clearing failure_count.  lifecycle.py is not in the provided sources. -/
def reset_for_retry (step : Step) : Except String Step :=
  if step.status == .FAILED && decide (step.failure_count < 2) then
    .ok { step with status := .PENDING }
  else
    .error "reset_for_retry requires FAILED with retries remaining"

/-- Modelled from the spec: can_skip(step) is true iff the risk level is
not HIGH.  lifecycle.py is not in the provided sources. -/
def can_skip (step : Step) : Bool :=
  step.risk_level != .HIGH

/-- Modelled from the spec: skip(step, reason) requires status FAILED,
sets SKIPPED and records the reason.  lifecycle.py is not in the
provided sources. -/
def skip (step : Step) (reason : String) : Except String Step :=
  if step.status == .FAILED then
    .ok { step with status := .SKIPPED, skip_reason := some reason }
  else
    .error "skip requires FAILED"

end StepLifecycle

namespace PlannerV2

/-- Python: outcome.error_message or "Unknown error" (None and the empty
string are both falsy). -/
def error_or_default (o : Option String) (d : String) : String :=
  match o with
  | some s => if s == "" then d else s
  | none => d

/-- The scan loop of PlannerV2.next_step (planner.py lines 419-431),
walking plan.steps in list order while tracking the position of the
current element in plan.steps.  A PENDING step that can activate is
activated in place and returned; an ACTIVE step is returned as is. -/
def next_step_go (plan : Plan) (state : PlanState) :
    Nat → List Step → Except String (Option Step × Plan × PlanState)
  | _, [] => .ok (none, plan, state)
  | i, step :: rest =>
    if step.status == .PENDING then
      if (StepLifecycle.can_activate step plan).1 then
        match StepLifecycle.activate step plan with
        | .ok s2 =>
          .ok (some s2,
               { plan with steps := plan.steps.set i s2 },
               { state with current_step_idx := plan.get_step_index step.step_id })
        | .error e => .error e
      else
        next_step_go plan state (i + 1) rest
    else if step.status == .ACTIVE then
      .ok (some step, plan, state)
    else
      next_step_go plan state (i + 1) rest

/-- PlannerV2.next_step (planner.py lines 400-431): none when halted,
otherwise the first PENDING step whose dependencies are all DONE
(activated in place, recording its index) or an ACTIVE step met during
the scan. -/
def next_step (plan : Plan) (state : PlanState) :
    Except String (Option Step × Plan × PlanState) :=
  if state.halted then
    .ok (none, plan, state)
  else
    next_step_go plan state 0 plan.steps

/-- PlannerV2.update_state (planner.py lines 433-472): resolve the
outcome step; unknown ids leave everything unchanged; success completes
the step and resets consecutive_failures; failure fails the step,
appends to failed_steps, increments consecutive_failures and halts when
the retry ceiling is exhausted or consecutive_failures reaches 2. -/
def update_state (plan : Plan) (state : PlanState) (outcome : ControllerOutcome) :
    Except String (Plan × PlanState) :=
  match plan.get_step outcome.step_id with
  | none => .ok (plan, state)
  | some step =>
    if outcome.success then
      match StepLifecycle.complete step outcome.to_dict with
      | .ok s2 =>
        .ok (plan.set_step outcome.step_id s2,
             { state with completed_steps := state.completed_steps ++ [outcome.step_id],
                          consecutive_failures := 0 })
      | .error e => .error e
    else
      match StepLifecycle.fail step (error_or_default outcome.error_message "Unknown error") with
      | .ok (s2, can_retry) =>
        let st := { state with failed_steps := state.failed_steps ++ [outcome.step_id],
                               consecutive_failures := state.consecutive_failures + 1 }
        if !can_retry || decide (2 ≤ st.consecutive_failures) then
          .ok (plan.set_step outcome.step_id s2,
               { st with halted := true,
                         halt_reason := some ("Step " ++ outcome.step_id ++ " failed "
                           ++ toString s2.failure_count ++ " times") })
        else
          .ok (plan.set_step outcome.step_id s2, st)
      | .error e => .error e

/-- PlannerV2.revise_plan (planner.py lines 474-515): on the first
failure of a step reset it for retry (incrementing revision_count and
version and clearing consecutive_failures); on the second failure skip
it when can_skip holds; otherwise return the plan unchanged. -/
def revise_plan (plan : Plan) (state : PlanState) (failure : ControllerOutcome) :
    Except String (Plan × PlanState) :=
  match plan.get_step failure.step_id with
  | none => .ok (plan, state)
  | some step =>
    if step.failure_count == 1 then
      match StepLifecycle.reset_for_retry step with
      | .ok s2 =>
        .ok ({ plan.set_step failure.step_id s2 with version := plan.version + 1 },
             { state with revision_count := state.revision_count + 1,
                          consecutive_failures := 0 })
      | .error e => .error e
    else if step.failure_count == 2 && StepLifecycle.can_skip step then
      match StepLifecycle.skip step "Non-critical step failed twice" with
      | .ok s2 =>
        .ok ({ plan.set_step failure.step_id s2 with version := plan.version + 1 },
             { state with revision_count := state.revision_count + 1 })
      | .error e => .error e
    else
      .ok (plan, state)

/-- PlannerV2.is_complete (planner.py lines 517-538). -/
def is_complete (plan : Plan) (state : PlanState) : Bool :=
  state.halted || plan.steps.all (fun s => s.status == .DONE || s.status == .SKIPPED)

end PlannerV2

/-- Python string comparison: lexicographic by code point over the
character sequences. -/
def lex_le : List Char → List Char → Bool
  | [], _ => true
  | _ :: _, [] => false
  | a :: as, b :: bs => if a < b then true else if b < a then false else lex_le as bs

/-- Comparison of two strings as Python compares them. -/
def str_le (a b : String) : Bool :=
  lex_le a.data b.data

/-- Python str.startswith, used by list_artifacts to filter by plan id. -/
def str_startsWith (s p : String) : Bool :=
  p.data.isPrefixOf s.data

/-- One insertion of the stable ascending sort below. -/
def sort_insert (x : String) : List String → List String
  | [] => [x]
  | y :: ys => if str_le x y then x :: y :: ys else y :: sort_insert x ys

/-- Python sorted(): a stable ascending sort; sorted(l, reverse=True) is
its reverse. -/
def sort_asc : List String → List String
  | [] => []
  | x :: xs => sort_insert x (sort_asc xs)

/-- StepArtifact (artifact_log.py lines 21-54): the record of a single
step execution. -/
structure StepArtifact where
  step_id : String
  task_spec_json : String
  outcome_json : String
  diff_summary_hash : String
  wall_clock_ms : Int
  timestamp : String
  files_touched : List String := []

/-- StepArtifact.to_dict (artifact_log.py lines 33-42). -/
def StepArtifact.to_dict (s : StepArtifact) : JValue :=
  .obj [("step_id", .str s.step_id),
        ("task_spec_json", .str s.task_spec_json),
        ("outcome_json", .str s.outcome_json),
        ("diff_summary_hash", .str s.diff_summary_hash),
        ("wall_clock_ms", .num s.wall_clock_ms),
        ("timestamp", .str s.timestamp),
        ("files_touched", .arr (s.files_touched.map JValue.str))]

/-- Extraction of a string value, as the Python constructors receive the
dict entries. -/
def JValue.asStr : JValue → Option String
  | .str s => some s
  | _ => none

/-- StepArtifact.from_dict (artifact_log.py lines 44-54): reads the
required keys data[...] and the optional data.get("files_touched", []). -/
def StepArtifact.from_dict (data : JValue) : Option StepArtifact := do
  let step_id ← (data.get "step_id").bind JValue.asStr
  let task_spec_json ← (data.get "task_spec_json").bind JValue.asStr
  let outcome_json ← (data.get "outcome_json").bind JValue.asStr
  let diff_summary_hash ← (data.get "diff_summary_hash").bind JValue.asStr
  let wall_clock_ms ← match data.get "wall_clock_ms" with
    | some (.num n) => some n
    | _ => none
  let timestamp ← (data.get "timestamp").bind JValue.asStr
  let files_touched ← match data.get "files_touched" with
    | some (.arr xs) => xs.mapM JValue.asStr
    | some _ => none
    | none => some []
  pure { step_id := step_id, task_spec_json := task_spec_json,
         outcome_json := outcome_json, diff_summary_hash := diff_summary_hash,
         wall_clock_ms := wall_clock_ms, timestamp := timestamp,
         files_touched := files_touched }

/-- PlanArtifact (artifact_log.py lines 57-100): the full record of a
plan run. -/
structure PlanArtifact where
  plan_id : String
  plan_json : String
  repo_fingerprint : String
  step_artifacts : List StepArtifact
  start_time : String
  end_time : String
  final_status : String
  metadata : List (String × JValue) := []

/-- PlanArtifact.to_dict (artifact_log.py lines 70-80). -/
def PlanArtifact.to_dict (a : PlanArtifact) : JValue :=
  .obj [("plan_id", .str a.plan_id),
        ("plan_json", .str a.plan_json),
        ("repo_fingerprint", .str a.repo_fingerprint),
        ("step_artifacts", .arr (a.step_artifacts.map StepArtifact.to_dict)),
        ("start_time", .str a.start_time),
        ("end_time", .str a.end_time),
        ("final_status", .str a.final_status),
        ("metadata", .obj a.metadata)]

/-- PlanArtifact.from_dict (artifact_log.py lines 85-96): reads the
required keys and the optional step_artifacts and metadata entries. -/
def PlanArtifact.from_dict (data : JValue) : Option PlanArtifact := do
  let plan_id ← (data.get "plan_id").bind JValue.asStr
  let plan_json ← (data.get "plan_json").bind JValue.asStr
  let repo_fingerprint ← (data.get "repo_fingerprint").bind JValue.asStr
  let step_artifacts ← match data.get "step_artifacts" with
    | some (.arr xs) => xs.mapM StepArtifact.from_dict
    | some _ => none
    | none => some []
  let start_time ← (data.get "start_time").bind JValue.asStr
  let end_time ← (data.get "end_time").bind JValue.asStr
  let final_status ← (data.get "final_status").bind JValue.asStr
  let metadata ← match data.get "metadata" with
    | some (.obj fields) => some fields
    | some _ => none
    | none => some []
  pure { plan_id := plan_id, plan_json := plan_json,
         repo_fingerprint := repo_fingerprint, step_artifacts := step_artifacts,
         start_time := start_time, end_time := end_time,
         final_status := final_status, metadata := metadata }

/-- PlanArtifact.to_json (artifact_log.py lines 82-83): json.dumps of
to_dict; the json library is external and passed as a parameter. -/
def PlanArtifact.to_json (json_dumps : JValue → String) (a : PlanArtifact) : String :=
  json_dumps a.to_dict

/-- PlanArtifact.from_json (artifact_log.py lines 98-100): from_dict of
json.loads; the json library is external and passed as a parameter. -/
def PlanArtifact.from_json (json_loads : String → Option JValue) (s : String) :
    Option PlanArtifact :=
  (json_loads s).bind PlanArtifact.from_dict

/-- Modelled from the spec: Step.to_dict for the plan serialization piped
into the artifact record (schema.py is not in the provided sources; the
exact key set does not affect the engine). -/
def Step.to_dict (s : Step) : JValue :=
  .obj [("step_id", .str s.step_id),
        ("title", .str s.title),
        ("intent", .str s.intent),
        ("allowed_files", .arr (s.allowed_files.map JValue.str)),
        ("success_criteria", .str s.success_criteria),
        ("dependencies", .arr (s.dependencies.map JValue.str)),
        ("verify", .str s.verify),
        ("rollback_hint", .str s.rollback_hint),
        ("controller_task_spec", s.controller_task_spec),
        ("failure_count", .num (Int.ofNat s.failure_count))]

/-- Modelled from the spec: Plan.to_dict for the artifact record
(schema.py is not in the provided sources). -/
def Plan.to_dict (p : Plan) : JValue :=
  .obj [("plan_id", .str p.plan_id),
        ("goal", .str p.goal),
        ("steps", .arr (p.steps.map Step.to_dict)),
        ("version", .num (Int.ofNat p.version)),
        ("created_at", .str p.created_at),
        ("assumptions", .arr (p.assumptions.map JValue.str)),
        ("constraints", .arr (p.constraints.map JValue.str))]

/-- The in-memory dict held per active artifact id
(artifact_log.py lines 134-143); step_artifacts holds the step records
as dicts, exactly as the source appends step_artifact.to_dict(). -/
structure ActiveRecord where
  plan_id : String
  plan_json : String
  repo_fingerprint : String
  step_artifacts : List JValue
  start_time : String
  end_time : String
  final_status : String
  metadata : List (String × JValue)

/-- Lookup in a Python dict modelled as an association list. -/
def dict_get {α : Type} (m : List (String × α)) (k : String) : Option α :=
  (m.find? (fun kv => kv.1 == k)).map (fun kv => kv.2)

/-- Assignment m[k] = v in a Python dict modelled as an association
list: the key is bound to the new value and any previous binding is
dropped. -/
def dict_insert {α : Type} (m : List (String × α)) (k : String) (v : α) :
    List (String × α) :=
  (k, v) :: m.filter (fun kv => !(kv.1 == k))

/-- m.pop(k) on a Python dict modelled as an association list. -/
def dict_pop {α : Type} (m : List (String × α)) (k : String) :
    List (String × α) :=
  m.filter (fun kv => !(kv.1 == k))

/-- PlanArtifactLog (artifact_log.py lines 103-264).  The in-memory map
of active records plus the output directory contents; a saved file
output_dir/id.json is modelled by the PlanArtifact value whose JSON text
it holds (the byte level json round trip through the disk is the
external json library). -/
structure PlanArtifactLog where
  output_dir : String
  active_artifacts : List (String × ActiveRecord) := []
  files : List (String × PlanArtifact) := []

namespace PlanArtifactLog

/-- PlanArtifactLog.record_plan_start (artifact_log.py lines 116-145):
generates the artifact id plan_id + "_" + timestamp and opens the
in-memory record.  The wall clock (ts for _timestamp(), now for
_now_iso()) and the external json.dumps are explicit parameters. -/
def record_plan_start (log : PlanArtifactLog) (json_dumps : JValue → String)
    (plan : Plan) (fingerprint : String) (metadata : Option (List (String × JValue)))
    (ts : String) (now : String) : String × PlanArtifactLog :=
  let artifact_id := plan.plan_id ++ "_" ++ ts
  let r : ActiveRecord :=
    { plan_id := plan.plan_id,
      plan_json := json_dumps plan.to_dict,
      repo_fingerprint := fingerprint,
      step_artifacts := [],
      start_time := now,
      end_time := "",
      final_status := "running",
      metadata := metadata.getD [] }
  (artifact_id,
   { log with active_artifacts := dict_insert log.active_artifacts artifact_id r })

/-- PlanArtifactLog.record_step (artifact_log.py lines 147-181): a call
against an unknown artifact id is a silent no-op; otherwise the step
record is appended as a dict.  The external json.dumps, the sha256 based
_hash_diff and the clock are explicit parameters. -/
def record_step (log : PlanArtifactLog) (json_dumps : JValue → String)
    (hash_diff : String → String) (artifact_id : String)
    (spec : ControllerTaskSpec) (outcome : ControllerOutcome) (diff : String)
    (elapsed_ms : Int) (files_touched : Option (List String)) (now : String) :
    PlanArtifactLog :=
  match dict_get log.active_artifacts artifact_id with
  | none => log
  | some r =>
    let step_artifact : StepArtifact :=
      { step_id := spec.step_id,
        task_spec_json := json_dumps spec.to_dict,
        outcome_json := json_dumps outcome.to_dict,
        diff_summary_hash := hash_diff diff,
        wall_clock_ms := elapsed_ms,
        timestamp := now,
        files_touched := files_touched.getD [] }
    let r2 : ActiveRecord :=
      { r with step_artifacts := r.step_artifacts ++ [step_artifact.to_dict] }
    { log with active_artifacts := dict_insert log.active_artifacts artifact_id r2 }

/-- PlanArtifactLog.finalize (artifact_log.py lines 183-220): none for
an unknown id; otherwise the record is popped from the active map,
stamped with end time and final status, converted back to StepArtifact
values (a malformed entry would raise KeyError in the source, modelled
as a loud error) and written to output_dir/id.json; the written path is
returned. -/
def finalize (log : PlanArtifactLog) (artifact_id : String) (status : String)
    (now : String) : Except String (Option String × PlanArtifactLog) :=
  match dict_get log.active_artifacts artifact_id with
  | none => .ok (none, log)
  | some r =>
    match r.step_artifacts.mapM StepArtifact.from_dict with
    | none => .error "KeyError"
    | some step_artifacts =>
      let artifact : PlanArtifact :=
        { plan_id := r.plan_id,
          plan_json := r.plan_json,
          repo_fingerprint := r.repo_fingerprint,
          step_artifacts := step_artifacts,
          start_time := r.start_time,
          end_time := now,
          final_status := status,
          metadata := r.metadata }
      .ok (some (log.output_dir ++ "/" ++ artifact_id ++ ".json"),
           { log with active_artifacts := dict_pop log.active_artifacts artifact_id,
                      files := dict_insert log.files artifact_id artifact })

/-- PlanArtifactLog.load (artifact_log.py lines 222-235): read back a
saved artifact by id, none when no such file exists. -/
def load (log : PlanArtifactLog) (artifact_id : String) : Option PlanArtifact :=
  dict_get log.files artifact_id

/-- PlanArtifactLog.list_artifacts (artifact_log.py lines 237-251): the
stems of the saved json files, kept when no plan id filter is given or
when the id starts with the given plan id, sorted descending. -/
def list_artifacts (log : PlanArtifactLog) (plan_id : Option String) : List String :=
  let artifacts := (log.files.map (fun kv => kv.1)).filter (fun artifact_id =>
    match plan_id with
    | none => true
    | some pid => str_startsWith artifact_id pid)
  (sort_asc artifacts).reverse

end PlanArtifactLog

/-! Concrete plans, outcomes and runs used by the scenario claims. -/

/-- Scenario A, step a (no dependencies). -/
def scnA_a : Step := { step_id := "a" }

/-- Scenario A, step b depending on a, MED risk. -/
def scnA_b_med : Step := { step_id := "b", dependencies := ["a"], risk_level := .MED }

/-- Scenario A, step b depending on a, HIGH risk. -/
def scnA_b_high : Step :=
  { step_id := "b", dependencies := ["a"], risk_level := .HIGH, rollback_hint := "undo b" }

/-- Scenario A, step c depending on b. -/
def scnA_c : Step := { step_id := "c", dependencies := ["b"] }

/-- Scenario A, the 3 step linear plan with b at MED risk. -/
def scnA_plan_med : Plan := { plan_id := "scnA", steps := [scnA_a, scnA_b_med, scnA_c] }

/-- Scenario A, the 3 step linear plan with b at HIGH risk. -/
def scnA_plan_high : Plan := { plan_id := "scnA", steps := [scnA_a, scnA_b_high, scnA_c] }

/-- Scenario A, success outcome for a. -/
def scnA_ok_a : ControllerOutcome := { step_id := "a", success := true }

/-- Scenario A, failure outcome for b. -/
def scnA_fail_b : ControllerOutcome :=
  { step_id := "b", success := false, error_message := some "b failed" }

/-- Scenario A driver loop: dispatch a, a succeeds, dispatch b, b fails,
revise, dispatch b again, b fails again, revise. -/
def scnA_run (plan : Plan) : Except String (Plan × PlanState) := do
  let (_, p1, s1) ← PlannerV2.next_step plan {}
  let (p2, s2) ← PlannerV2.update_state p1 s1 scnA_ok_a
  let (_, p3, s3) ← PlannerV2.next_step p2 s2
  let (p4, s4) ← PlannerV2.update_state p3 s3 scnA_fail_b
  let (p5, s5) ← PlannerV2.revise_plan p4 s4 scnA_fail_b
  let (_, p6, s6) ← PlannerV2.next_step p5 s5
  let (p7, s7) ← PlannerV2.update_state p6 s6 scnA_fail_b
  let (p8, s8) ← PlannerV2.revise_plan p7 s7 scnA_fail_b
  pure (p8, s8)

/-- Scenario C, step x (no dependencies). -/
def scnC_x : Step := { step_id := "x" }

/-- Scenario C, step y (no dependencies). -/
def scnC_y : Step := { step_id := "y" }

/-- Scenario C, the two step plan. -/
def scnC_plan : Plan := { plan_id := "scnC", steps := [scnC_x, scnC_y] }

/-- Scenario C variant in which both steps are ACTIVE, so that each can
receive a failure outcome with a plan revision in between. -/
def scnC_plan_both_active : Plan :=
  { plan_id := "scnC",
    steps := [{ scnC_x with status := .ACTIVE }, { scnC_y with status := .ACTIVE }] }

/-- Scenario C, failure outcome for x. -/
def scnC_fail_x : ControllerOutcome :=
  { step_id := "x", success := false, error_message := some "x failed" }

/-- Scenario C, failure outcome for y. -/
def scnC_fail_y : ControllerOutcome :=
  { step_id := "y", success := false, error_message := some "y failed" }

/-- Scenario C with the revision policy applied between the two
failures: x fails once, revise_plan resets x (clearing the consecutive
failure counter), then y fails once. -/
def scnC_revised_run : Except String (Plan × PlanState) := do
  let (p1, s1) ← PlannerV2.update_state scnC_plan_both_active {} scnC_fail_x
  let (p2, s2) ← PlannerV2.revise_plan p1 s1 scnC_fail_x
  let (p3, s3) ← PlannerV2.update_state p2 s2 scnC_fail_y
  pure (p3, s3)

/-- Scenario C driven by the engine with no intervening revision:
dispatch x, x fails, dispatch y, y fails. -/
def scnC_run : Except String (Plan × PlanState) := do
  let (_, p1, s1) ← PlannerV2.next_step scnC_plan {}
  let (p2, s2) ← PlannerV2.update_state p1 s1 scnC_fail_x
  let (_, p3, s3) ← PlannerV2.next_step p2 s2
  let (p4, s4) ← PlannerV2.update_state p3 s3 scnC_fail_y
  pure (p4, s4)

/-- A step that failed twice and cannot be skipped (HIGH risk). -/
def c5_step : Step :=
  { step_id := "w", risk_level := .HIGH, rollback_hint := "undo w",
    status := .FAILED, failure_count := 2 }

/-- One step plan around c5_step. -/
def c5_plan : Plan := { plan_id := "c5", steps := [c5_step] }

/-- Failure outcome for c5_step. -/
def c5_fail : ControllerOutcome :=
  { step_id := "w", success := false, error_message := some "w failed" }

/-- An outcome whose step id occurs in no plan used below. -/
def c7_out_unknown : ControllerOutcome := { step_id := "ghost", success := true }

/-- One step plan for the unknown reference claim. -/
def c7_plan : Plan := { plan_id := "c7", steps := [{ step_id := "s1" }] }

/-- A fresh artifact log. -/
def c7_log : PlanArtifactLog := { output_dir := "out" }

/-- A task spec for the recorded step. -/
def c7_spec : ControllerTaskSpec := { step_id := "s1" }

/-- Stand-in for the external json.dumps. -/
def c7_jd : JValue → String := fun _ => "json"

/-- Stand-in for the external sha256 digest. -/
def c7_hd : String → String := fun _ => "hash"

/-- The log with one recording opened. -/
def c7_started : String × PlanArtifactLog :=
  PlanArtifactLog.record_plan_start c7_log c7_jd c7_plan "fp" none "20240101_000000" "t0"

/-- Finalizing the opened recording. -/
def c7_fin : Except String (Option String × PlanArtifactLog) :=
  PlanArtifactLog.finalize c7_started.2 c7_started.1 "success" "t1"

/-- The log left after the finalize call. -/
def c7_log2 : PlanArtifactLog :=
  match c7_fin with
  | .ok (_, l) => l
  | .error _ => c7_log

/-- A step that failed once, for the halted revision claim. -/
def c10_step : Step := { step_id := "r", status := .FAILED, failure_count := 1 }

/-- One step plan around c10_step. -/
def c10_plan : Plan := { plan_id := "c10", steps := [c10_step] }

/-- A halted state. -/
def c10_state : PlanState := { halted := true, consecutive_failures := 2 }

/-- Failure outcome for c10_step. -/
def c10_fail : ControllerOutcome :=
  { step_id := "r", success := false, error_message := some "r failed" }

/-- A step artifact with every field populated. -/
def c8_step_art : StepArtifact :=
  { step_id := "s1", task_spec_json := "ts", outcome_json := "oc",
    diff_summary_hash := "abcd1234abcd1234", wall_clock_ms := 12,
    timestamp := "t", files_touched := ["f.py"] }

/-- A plan artifact with a nested step artifact and metadata. -/
def c8_art : PlanArtifact :=
  { plan_id := "p", plan_json := "pj", repo_fingerprint := "fp",
    step_artifacts := [c8_step_art], start_time := "t0", end_time := "t1",
    final_status := "success", metadata := [("k", .str "v")] }

/-- Stand-in for json.dumps in the round trip witness. -/
def c8_jd : JValue → String := fun _ => "doc"

/-- Stand-in for json.loads in the round trip witness, returning the
serialized dict back. -/
def c8_jl : String → Option JValue := fun _ => some c8_art.to_dict

/-- An empty plan named p. -/
def c9_plan_p : Plan := { plan_id := "p", steps := [] }

/-- An empty plan named pq, whose id extends the id of c9_plan_p. -/
def c9_plan_pq : Plan := { plan_id := "pq", steps := [] }

/-- Stand-in for the external json.dumps. -/
def c9_jd : JValue → String := fun _ => "json"

/-- A recording opened for plan p. -/
def c9_started_p : String × PlanArtifactLog :=
  PlanArtifactLog.record_plan_start { output_dir := "out" } c9_jd c9_plan_p
    "fp" none "20240101_000000" "t0"

/-- A recording opened for plan pq on top of the previous log. -/
def c9_started_pq : String × PlanArtifactLog :=
  PlanArtifactLog.record_plan_start c9_started_p.2 c9_jd c9_plan_pq
    "fp" none "20240102_000000" "t1"

/-- Both recordings finalized, leaving two saved artifacts. -/
def c9_final : Except String PlanArtifactLog := do
  let (_, l1) ← PlanArtifactLog.finalize c9_started_pq.2 c9_started_p.1 "success" "t2"
  let (_, l2) ← PlanArtifactLog.finalize l1 c9_started_pq.1 "success" "t3"
  pure l2

/-- A twice failed MED risk step about to be skipped. -/
def c6_step : Step :=
  { step_id := "m", risk_level := .MED, status := .FAILED, failure_count := 2 }

/-- One step plan around c6_step. -/
def c6_plan : Plan := { plan_id := "c6", steps := [c6_step] }

/-- Failure outcome for c6_step. -/
def c6_fail : ControllerOutcome :=
  { step_id := "m", success := false, error_message := some "m failed" }

/-- The plan and state produced by revising c6_plan, which skips
c6_step. -/
def c6_result : Plan × PlanState :=
  match PlannerV2.revise_plan c6_plan {} c6_fail with
  | .ok r => r
  | .error _ => (c6_plan, {})

/-- A step that the next_step scan passes over without returning:
neither a PENDING step whose dependencies allow activation nor an
ACTIVE step. -/
def scan_skips (plan : Plan) (s : Step) : Bool :=
  (!(s.status == .PENDING) && !(s.status == .ACTIVE)) ||
  (s.status == .PENDING && !(StepLifecycle.can_activate s plan).1)

/-- A dependency free PENDING step listed before an ACTIVE step. -/
def c1_pending : Step := { step_id := "p" }

/-- An ACTIVE step listed after a dispatchable PENDING one. -/
def c1_active : Step := { step_id := "q", status := .ACTIVE }

/-- Plan in which a dispatchable PENDING step precedes the ACTIVE
step. -/
def c1_plan : Plan := { plan_id := "c1", steps := [c1_pending, c1_active] }

/-- A DONE step, for the witness prefix. -/
def c1w_done : Step := { step_id := "d", status := .DONE }

/-- An ACTIVE step, for the witness. -/
def c1w_active : Step := { step_id := "e", status := .ACTIVE }

/-- Plan whose first actionable step in scan order is the ACTIVE one. -/
def c1w_plan : Plan := { plan_id := "c1w", steps := [c1w_done, c1w_active] }

/-! Theorems. -/

/-- Mapping strings into string values and extracting them back is the
identity. -/
theorem mapM_asStr_map_str (l : List String) :
    (l.map JValue.str).mapM JValue.asStr = some l := by
  induction l with
  | nil => rfl
  | cons a t ih =>
    rw [List.map_cons, List.mapM_cons, ih]
    rfl

/-- Round trip for a single step artifact dict. -/
theorem stepArtifact_from_to (s : StepArtifact) :
    StepArtifact.from_dict s.to_dict = some s := by
  cases s
  simp only [StepArtifact.to_dict, StepArtifact.from_dict, JValue.get, JValue.asStr,
    List.find?, String.reduceBEq, beq_self_eq_true, Option.map_some',
    Option.some_bind, mapM_asStr_map_str]
  rfl

/-- Round trip for a list of step artifact dicts. -/
theorem mapM_stepArtifact_round (l : List StepArtifact) :
    (l.map StepArtifact.to_dict).mapM StepArtifact.from_dict = some l := by
  induction l with
  | nil => rfl
  | cons a t ih =>
    rw [List.map_cons, List.mapM_cons, stepArtifact_from_to a, ih]
    rfl

/-- Lookup of a key in a dict right after popping that key is none. -/
theorem dict_get_pop {α : Type} (m : List (String × α)) (k : String) :
    dict_get (dict_pop m k) k = none := by
  induction m with
  | nil => rfl
  | cons a t ih =>
    by_cases hk : (a.1 == k) = true
    · simp only [dict_get, dict_pop, List.filter, hk] at ih ⊢
      exact ih
    · simp only [dict_get, dict_pop, List.filter, List.find?, hk, Bool.not_false,
        Bool.not_true, cond_true, cond_false] at ih ⊢
      exact ih

/-- Claim C2, counterexample: in the Scenario A run with b at MED risk,
b is indeed SKIPPED, but the final state is halted and step c stays
PENDING; c does not become ACTIVATED in the skip case, and a further
next_step call dispatches nothing. -/
theorem C2_counterexample :
    ((scnA_run scnA_plan_med).map fun r =>
      ((r.1.get_step "a").map Step.status,
       (r.1.get_step "b").map Step.status,
       (r.1.get_step "c").map Step.status,
       r.2.halted)) = .ok (some .DONE, some .SKIPPED, some .PENDING, true) ∧
    ((scnA_run scnA_plan_med).bind fun r =>
      (PlannerV2.next_step r.1 r.2).map Prod.fst) = .ok none := by
  exact ⟨rfl, rfl⟩

/-- Claim C2 as amended: in Scenario A (a succeeds, b fails twice with
the revision policy applied after each failure), a ends DONE; with b at
MED risk b ends SKIPPED, with b at HIGH risk b ends FAILED; the run is
halted in both cases because the second failure exhausts the retry
ceiling of b; c never becomes ACTIVATED: next_step dispatches nothing on
the halted state, and the SKIPPED dependency b would not satisfy
can_activate for c in any case. -/
theorem C2_amended :
    ((scnA_run scnA_plan_med).map fun r =>
      ((r.1.get_step "a").map Step.status,
       (r.1.get_step "b").map Step.status,
       (r.1.get_step "c").map Step.status,
       r.2.halted)) = .ok (some .DONE, some .SKIPPED, some .PENDING, true) ∧
    ((scnA_run scnA_plan_high).map fun r =>
      ((r.1.get_step "a").map Step.status,
       (r.1.get_step "b").map Step.status,
       (r.1.get_step "c").map Step.status,
       r.2.halted)) = .ok (some .DONE, some .FAILED, some .PENDING, true) ∧
    ((scnA_run scnA_plan_med).bind fun r =>
      (PlannerV2.next_step r.1 r.2).map Prod.fst) = .ok none ∧
    ((scnA_run scnA_plan_med).map fun r =>
      (r.1.get_step "c").map fun c => (StepLifecycle.can_activate c r.1).1) =
      .ok (some false) := by
  exact ⟨rfl, rfl, rfl, rfl⟩

/-- Claim C3, counterexample: two different steps each fail exactly once
in consecutive update_state calls with the revision policy applied
between them; the revision resets consecutive_failures to 0, so the
counter ends at 1, not 2, and the run is not halted. -/
theorem C3_counterexample :
    scnC_revised_run.map (fun r =>
      (r.2.consecutive_failures, r.2.halted,
       (r.1.get_step "x").map Step.failure_count,
       (r.1.get_step "y").map Step.failure_count)) =
      .ok (1, false, some 1, some 1) := by
  exact rfl

/-- Claim C3 as amended: when two different steps fail in consecutive
update_state calls with no intervening revision, consecutive_failures
reaches 2 and update_state halts the run, even though each step failed
only once and neither exhausted its own retry ceiling. -/
theorem C3_amended :
    scnC_run.map (fun r =>
      (r.2.consecutive_failures, r.2.halted, r.2.halt_reason,
       (r.1.get_step "x").map Step.failure_count,
       (r.1.get_step "y").map Step.failure_count)) =
      .ok (2, true, some "Step y failed 1 times", some 1, some 1) := by
  exact rfl

/-- Claim C4: once state.halted is true, next_step returns none (and
leaves the plan and state untouched), and neither update_state nor
revise_plan ever produces a state with halted set back to false, so a
halted run never resumes under the same state object. -/
theorem C4_halt_monotonicity :
    ∀ (plan : Plan) (state : PlanState), state.halted = true →
      PlannerV2.next_step plan state = .ok (none, plan, state) ∧
      (∀ o p2 s2, PlannerV2.update_state plan state o = .ok (p2, s2) → s2.halted = true) ∧
      (∀ o p2 s2, PlannerV2.revise_plan plan state o = .ok (p2, s2) → s2.halted = true) := by
  intro plan state h
  refine ⟨by simp [PlannerV2.next_step, h], ?_, ?_⟩
  · intro o p2 s2 hu
    unfold PlannerV2.update_state at hu
    split at hu
    · cases hu; exact h
    · split at hu
      · split at hu
        · cases hu; exact h
        · cases hu
      · split at hu
        · dsimp only at hu
          split at hu
          · cases hu; rfl
          · cases hu; exact h
        · cases hu
  · intro o p2 s2 hu
    unfold PlannerV2.revise_plan at hu
    split at hu
    · cases hu; exact h
    · split at hu
      · split at hu
        · cases hu; exact h
        · cases hu
      · split at hu
        · split at hu
          · cases hu; exact h
          · cases hu
        · cases hu; exact h

/-- Witness for C4 at a concrete halted state. -/
theorem C4_halt_monotonicity_witness :
    ({ halted := true } : PlanState).halted = true ∧
    PlannerV2.next_step scnC_plan { halted := true } =
      .ok (none, scnC_plan, { halted := true }) :=
  ⟨rfl, (C4_halt_monotonicity scnC_plan { halted := true } rfl).1⟩

/-- Claim C5: when the failed step exists but its failure count is
neither 1 nor 2, or is 2 while the step cannot be skipped, revise_plan
returns the plan and the state exactly unchanged: no retry reset, no
skip, no revision_count increment, no version increment.  In particular
a step that has already failed twice is never reset for a third
automatic retry. -/
theorem C5_retry_ceiling :
    ∀ (plan : Plan) (state : PlanState) (failure : ControllerOutcome) (step : Step),
      plan.get_step failure.step_id = some step →
      step.failure_count ≠ 1 →
      ¬(step.failure_count = 2 ∧ StepLifecycle.can_skip step = true) →
      PlannerV2.revise_plan plan state failure = .ok (plan, state) := by
  intro plan state failure step hg h1 h2
  have hb1 : (step.failure_count == 1) = false := by
    simp only [beq_eq_false_iff_ne, ne_eq]
    exact h1
  have hb2 : (step.failure_count == 2 && StepLifecycle.can_skip step) = false := by
    by_cases hc : step.failure_count = 2
    · have hcs : StepLifecycle.can_skip step = false := by
        cases hcs : StepLifecycle.can_skip step with
        | true => exact absurd ⟨hc, hcs⟩ h2
        | false => rfl
      simp [hcs]
    · simp [hc]
  unfold PlannerV2.revise_plan
  simp only [hg, hb1, hb2, Bool.false_eq_true, if_false]

/-- Witness for C5: a step that failed twice and is HIGH risk is left
untouched by revise_plan. -/
theorem C5_retry_ceiling_witness :
    (c5_plan.get_step "w" = some c5_step ∧ c5_step.failure_count ≠ 1 ∧
      ¬(c5_step.failure_count = 2 ∧ StepLifecycle.can_skip c5_step = true)) ∧
    PlannerV2.revise_plan c5_plan ({} : PlanState) c5_fail = .ok (c5_plan, {}) :=
  ⟨⟨rfl, by decide, by decide⟩,
   C5_retry_ceiling c5_plan {} c5_fail c5_step rfl (by decide) (by decide)⟩

/-- Claim C10: revise_plan never consults state.halted; for a halted
state whose failed step has failure count 1 (and status FAILED, the
status the step of a processed failure outcome has), revise_plan still
resets the step to PENDING, increments revision_count, clears
consecutive_failures and increments the plan version, while next_step
returns none both before and after, forever. -/
theorem C10_revise_ignores_halt :
    ∀ (plan : Plan) (state : PlanState) (failure : ControllerOutcome) (step : Step),
      state.halted = true →
      plan.get_step failure.step_id = some step →
      step.failure_count = 1 →
      step.status = .FAILED →
      PlannerV2.revise_plan plan state failure =
        .ok ({ plan.set_step failure.step_id { step with status := .PENDING } with
                 version := plan.version + 1 },
             { state with revision_count := state.revision_count + 1,
                          consecutive_failures := 0 }) ∧
      PlannerV2.next_step plan state = .ok (none, plan, state) ∧
      PlannerV2.next_step
          ({ plan.set_step failure.step_id { step with status := .PENDING } with
               version := plan.version + 1 })
          ({ state with revision_count := state.revision_count + 1,
                        consecutive_failures := 0 }) =
        .ok (none,
             { plan.set_step failure.step_id { step with status := .PENDING } with
                 version := plan.version + 1 },
             { state with revision_count := state.revision_count + 1,
                          consecutive_failures := 0 }) := by
  intro plan state failure step hh hg h1 hs
  refine ⟨?_, by simp [PlannerV2.next_step, hh], by simp [PlannerV2.next_step, hh]⟩
  have hb1 : (step.failure_count == 1) = true := by simp [h1]
  have hr : StepLifecycle.reset_for_retry step = .ok { step with status := .PENDING } := by
    unfold StepLifecycle.reset_for_retry
    rw [hs, h1]
    rfl
  unfold PlannerV2.revise_plan
  simp only [hg, hb1, if_true, hr]

/-- Witness for C10 at a concrete halted state with a once-failed step. -/
theorem C10_revise_ignores_halt_witness :
    (c10_state.halted = true ∧ c10_plan.get_step "r" = some c10_step ∧
     c10_step.failure_count = 1 ∧ c10_step.status = .FAILED) ∧
    (PlannerV2.revise_plan c10_plan c10_state c10_fail =
        .ok ({ c10_plan.set_step "r" { c10_step with status := .PENDING } with
                 version := c10_plan.version + 1 },
             { c10_state with revision_count := c10_state.revision_count + 1,
                              consecutive_failures := 0 }) ∧
     PlannerV2.next_step c10_plan c10_state = .ok (none, c10_plan, c10_state) ∧
     PlannerV2.next_step
         ({ c10_plan.set_step "r" { c10_step with status := .PENDING } with
              version := c10_plan.version + 1 })
         ({ c10_state with revision_count := c10_state.revision_count + 1,
                           consecutive_failures := 0 }) =
       .ok (none,
            { c10_plan.set_step "r" { c10_step with status := .PENDING } with
                version := c10_plan.version + 1 },
            { c10_state with revision_count := c10_state.revision_count + 1,
                             consecutive_failures := 0 })) :=
  ⟨⟨rfl, rfl, rfl, rfl⟩,
   C10_revise_ignores_halt c10_plan c10_state c10_fail c10_step rfl rfl rfl rfl⟩

/-- Claim C7: operations against unknown references are no-ops with an
absent result: update_state with an unknown step id returns the plan and
state unchanged; record_step with an artifact id outside the active set
returns the log unchanged; finalize with an unknown artifact id returns
none and the log unchanged; and after a successful finalize removed an
id from the active set, record_step with that id is a no-op. -/
theorem C7_unknown_refs :
    (∀ (plan : Plan) (state : PlanState) (o : ControllerOutcome),
       plan.get_step o.step_id = none →
       PlannerV2.update_state plan state o = .ok (plan, state)) ∧
    (∀ (log : PlanArtifactLog) (jd : JValue → String) (hd : String → String)
       (aid : String) (spec : ControllerTaskSpec) (o : ControllerOutcome)
       (diff : String) (ms : Int) (ft : Option (List String)) (now : String),
       dict_get log.active_artifacts aid = none →
       PlanArtifactLog.record_step log jd hd aid spec o diff ms ft now = log) ∧
    (∀ (log : PlanArtifactLog) (aid status now : String),
       dict_get log.active_artifacts aid = none →
       PlanArtifactLog.finalize log aid status now = .ok (none, log)) ∧
    (∀ (log : PlanArtifactLog) (aid status now path : String)
       (log2 : PlanArtifactLog),
       PlanArtifactLog.finalize log aid status now = .ok (some path, log2) →
       ∀ (jd : JValue → String) (hd : String → String) (spec : ControllerTaskSpec)
         (o : ControllerOutcome) (diff : String) (ms : Int)
         (ft : Option (List String)) (now2 : String),
         PlanArtifactLog.record_step log2 jd hd aid spec o diff ms ft now2 = log2) := by
  refine ⟨?_, ?_, ?_, ?_⟩
  · intro plan state o hg
    unfold PlannerV2.update_state
    simp only [hg]
  · intro log jd hd aid spec o diff ms ft now hg
    unfold PlanArtifactLog.record_step
    simp only [hg]
  · intro log aid status now hg
    unfold PlanArtifactLog.finalize
    simp only [hg]
  · intro log aid status now path log2 hf jd hd spec o diff ms ft now2
    unfold PlanArtifactLog.finalize at hf
    split at hf
    · simp at hf
    · split at hf
      · cases hf
      · simp only [Except.ok.injEq, Prod.mk.injEq] at hf
        obtain ⟨-, hl2⟩ := hf
        have hnone : dict_get log2.active_artifacts aid = none := by
          rw [← hl2]
          exact dict_get_pop log.active_artifacts aid
        unfold PlanArtifactLog.record_step
        simp only [hnone]

/-- Witness for C7 at concrete inputs: an unknown step id, an unknown
artifact id, and a finalize followed by record_step on the same id. -/
theorem C7_unknown_refs_witness :
    (c7_plan.get_step "ghost" = none ∧
     PlannerV2.update_state c7_plan {} c7_out_unknown = .ok (c7_plan, {})) ∧
    (dict_get c7_log.active_artifacts "nope" = none ∧
     PlanArtifactLog.record_step c7_log c7_jd c7_hd "nope" c7_spec c7_out_unknown
       "diff" 5 none "t" = c7_log ∧
     PlanArtifactLog.finalize c7_log "nope" "failed" "t" = .ok (none, c7_log)) ∧
    (c7_fin = .ok (some "out/c7_20240101_000000.json", c7_log2) ∧
     PlanArtifactLog.record_step c7_log2 c7_jd c7_hd c7_started.1 c7_spec
       c7_out_unknown "diff" 5 none "t2" = c7_log2) :=
  ⟨⟨rfl, C7_unknown_refs.1 c7_plan {} c7_out_unknown rfl⟩,
   ⟨rfl,
    C7_unknown_refs.2.1 c7_log c7_jd c7_hd "nope" c7_spec c7_out_unknown "diff" 5 none "t" rfl,
    C7_unknown_refs.2.2.1 c7_log "nope" "failed" "t" rfl⟩,
   ⟨rfl,
    C7_unknown_refs.2.2.2 c7_started.2 c7_started.1 "success" "t1"
      "out/c7_20240101_000000.json" c7_log2 rfl c7_jd c7_hd c7_spec c7_out_unknown
      "diff" 5 none "t2"⟩⟩

/-- Claim C8: deserializing the serialized form of any PlanArtifact
(from_dict of to_dict, including every nested StepArtifact) reproduces
the original structure field for field; through the json text level,
from_json of to_json reproduces it as well whenever the external json
library decodes what it encoded. -/
theorem C8_artifact_round_trip :
    (∀ a : PlanArtifact, PlanArtifact.from_dict a.to_dict = some a) ∧
    (∀ s : StepArtifact, StepArtifact.from_dict s.to_dict = some s) ∧
    (∀ (jd : JValue → String) (jl : String → Option JValue) (a : PlanArtifact),
       jl (jd a.to_dict) = some a.to_dict →
       PlanArtifact.from_json jl (PlanArtifact.to_json jd a) = some a) := by
  have hplan : ∀ a : PlanArtifact, PlanArtifact.from_dict a.to_dict = some a := by
    intro a
    cases a
    simp only [PlanArtifact.to_dict, PlanArtifact.from_dict, JValue.get, JValue.asStr,
      List.find?, String.reduceBEq, beq_self_eq_true, Option.map_some',
      Option.some_bind, mapM_stepArtifact_round]
    rfl
  refine ⟨hplan, stepArtifact_from_to, ?_⟩
  intro jd jl a hload
  unfold PlanArtifact.from_json PlanArtifact.to_json
  rw [hload]
  simpa using hplan a

/-- Witness for C8 at a concrete artifact and a concrete decoder that
inverts the concrete encoder on it. -/
theorem C8_artifact_round_trip_witness :
    c8_jl (c8_jd c8_art.to_dict) = some c8_art.to_dict ∧
    PlanArtifact.from_json c8_jl (PlanArtifact.to_json c8_jd c8_art) = some c8_art :=
  ⟨rfl, C8_artifact_round_trip.2.2 c8_jd c8_jl c8_art rfl⟩

/-- Totality of the lexicographic character list comparison. -/
theorem lex_le_total : ∀ (a b : List Char), lex_le a b = true ∨ lex_le b a = true
  | [], _ => Or.inl rfl
  | _ :: _, [] => Or.inr rfl
  | a :: as, b :: bs => by
    rcases lt_trichotomy a b with h | h | h
    · left
      simp [lex_le, h]
    · subst h
      have ih := lex_le_total as bs
      simpa [lex_le, lt_irrefl] using ih
    · right
      simp [lex_le, h]

/-- Transitivity of the lexicographic character list comparison. -/
theorem lex_le_trans :
    ∀ (a b c : List Char), lex_le a b = true → lex_le b c = true → lex_le a c = true
  | [], _, _ => by
    intro _ _
    rfl
  | _ :: _, [], _ => by
    intro h _
    simp [lex_le] at h
  | _ :: _, _ :: _, [] => by
    intro _ h
    simp [lex_le] at h
  | a :: as, b :: bs, c :: cs => by
    intro h1 h2
    rcases lt_trichotomy a b with hab | hab | hab
    · rcases lt_trichotomy b c with hbc | hbc | hbc
      · simp [lex_le, lt_trans hab hbc]
      · subst hbc
        simp [lex_le, hab]
      · simp [lex_le, hbc, not_lt_of_gt hbc] at h2
    · subst hab
      rcases lt_trichotomy a c with hac | hac | hac
      · simp [lex_le, hac]
      · subst hac
        simp only [lex_le, lt_irrefl, if_false] at h1 h2 ⊢
        exact lex_le_trans as bs cs h1 h2
      · simp [lex_le, hac, not_lt_of_gt hac] at h2
    · simp [lex_le, hab, not_lt_of_gt hab] at h1

/-- Totality of the string comparison. -/
theorem str_le_total (a b : String) : str_le a b = true ∨ str_le b a = true :=
  lex_le_total a.data b.data

/-- Transitivity of the string comparison. -/
theorem str_le_trans (a b c : String) :
    str_le a b = true → str_le b c = true → str_le a c = true :=
  lex_le_trans a.data b.data c.data

/-- Membership through one insertion of the stable sort. -/
theorem mem_sort_insert (x a : String) (l : List String) :
    a ∈ sort_insert x l ↔ a = x ∨ a ∈ l := by
  induction l with
  | nil => simp [sort_insert]
  | cons y ys ih =>
    by_cases h : str_le x y = true
    · simp [sort_insert, h]
    · simp [sort_insert, h, ih]
      tauto

/-- Membership through the stable ascending sort. -/
theorem mem_sort_asc (a : String) (l : List String) :
    a ∈ sort_asc l ↔ a ∈ l := by
  induction l with
  | nil => simp [sort_asc]
  | cons y ys ih =>
    simp [sort_asc, mem_sort_insert, ih]

/-- One insertion keeps the list sorted ascending. -/
theorem pairwise_sort_insert (x : String) (l : List String)
    (h : l.Pairwise (fun a b => str_le a b = true)) :
    (sort_insert x l).Pairwise (fun a b => str_le a b = true) := by
  induction l with
  | nil => simp [sort_insert]
  | cons y ys ih =>
    rcases List.pairwise_cons.mp h with ⟨hy, hys⟩
    by_cases hxy : str_le x y = true
    · unfold sort_insert
      rw [if_pos hxy]
      refine List.pairwise_cons.mpr ⟨?_, h⟩
      intro z hz
      rcases List.mem_cons.mp hz with rfl | hz2
      · exact hxy
      · exact str_le_trans x y z hxy (hy z hz2)
    · unfold sort_insert
      rw [if_neg hxy]
      refine List.pairwise_cons.mpr ⟨?_, ih hys⟩
      intro z hz
      rcases (mem_sort_insert x z ys).mp hz with rfl | hz2
      · rcases str_le_total z y with hc | hc
        · exact absurd hc hxy
        · exact hc
      · exact hy z hz2

/-- The ascending sort is sorted ascending. -/
theorem pairwise_sort_asc (l : List String) :
    (sort_asc l).Pairwise (fun a b => str_le a b = true) := by
  induction l with
  | nil => simp [sort_asc]
  | cons y ys ih => exact pairwise_sort_insert y (sort_asc ys) ih

/-- A successful activate yields an ACTIVE step. -/
theorem activate_status (step : Step) (plan : Plan) (s2 : Step)
    (h : StepLifecycle.activate step plan = .ok s2) : s2.status = .ACTIVE := by
  unfold StepLifecycle.activate at h
  split at h
  · cases h; rfl
  · cases h

/-- A successful complete yields a DONE step. -/
theorem complete_status (step : Step) (payload : JValue) (s2 : Step)
    (h : StepLifecycle.complete step payload = .ok s2) : s2.status = .DONE := by
  unfold StepLifecycle.complete at h
  split at h
  · cases h; rfl
  · cases h

/-- A successful fail yields a FAILED step. -/
theorem fail_status (step : Step) (msg : String) (s2 : Step) (b : Bool)
    (h : StepLifecycle.fail step msg = .ok (s2, b)) : s2.status = .FAILED := by
  unfold StepLifecycle.fail at h
  split at h
  · cases h; rfl
  · cases h

/-- A successful reset_for_retry yields a PENDING step. -/
theorem reset_status (step : Step) (s2 : Step)
    (h : StepLifecycle.reset_for_retry step = .ok s2) : s2.status = .PENDING := by
  unfold StepLifecycle.reset_for_retry at h
  split at h
  · cases h; rfl
  · cases h

/-- A successful skip yields a SKIPPED step with the original risk
level. -/
theorem skip_status (step : Step) (reason : String) (s2 : Step)
    (h : StepLifecycle.skip step reason = .ok s2) :
    s2.status = .SKIPPED ∧ s2.risk_level = step.risk_level := by
  unfold StepLifecycle.skip at h
  split at h
  · cases h; exact ⟨rfl, rfl⟩
  · cases h

/-- Every step of the plan returned by the next_step scan is either a
step of the input plan or was just set ACTIVE. -/
theorem next_step_go_steps (plan : Plan) (state : PlanState) :
    ∀ (l : List Step) (i : Nat) (r : Option Step) (p2 : Plan) (st2 : PlanState),
      PlannerV2.next_step_go plan state i l = .ok (r, p2, st2) →
      ∀ s ∈ p2.steps, s ∈ plan.steps ∨ s.status = .ACTIVE := by
  intro l
  induction l with
  | nil =>
    intro i r p2 st2 h s hs
    cases h
    exact Or.inl hs
  | cons step rest ih =>
    intro i r p2 st2 h s hs
    unfold PlannerV2.next_step_go at h
    split at h
    · split at h
      · split at h
        · rename_i s2 heq
          cases h
          rcases List.mem_or_eq_of_mem_set hs with h1 | h2
          · exact Or.inl h1
          · rw [h2]
            exact Or.inr (activate_status step plan s2 heq)
        · cases h
      · exact ih (i + 1) r p2 st2 h s hs
    · split at h
      · cases h
        exact Or.inl hs
      · exact ih (i + 1) r p2 st2 h s hs

/-- Every step of the plan returned by next_step is either a step of
the input plan or ACTIVE. -/
theorem next_step_steps (plan : Plan) (state : PlanState) (r : Option Step)
    (p2 : Plan) (st2 : PlanState)
    (h : PlannerV2.next_step plan state = .ok (r, p2, st2)) :
    ∀ s ∈ p2.steps, s ∈ plan.steps ∨ s.status = .ACTIVE := by
  unfold PlannerV2.next_step at h
  split at h
  · cases h
    intro s hs
    exact Or.inl hs
  · exact next_step_go_steps plan state plan.steps 0 r p2 st2 h

/-- Every step of the plan returned by update_state is either a step of
the input plan, or DONE, or FAILED. -/
theorem update_state_steps (plan : Plan) (state : PlanState)
    (o : ControllerOutcome) (p2 : Plan) (st2 : PlanState)
    (h : PlannerV2.update_state plan state o = .ok (p2, st2)) :
    ∀ s ∈ p2.steps, s ∈ plan.steps ∨ s.status = .DONE ∨ s.status = .FAILED := by
  unfold PlannerV2.update_state at h
  split at h
  · cases h
    intro s hs
    exact Or.inl hs
  · rename_i step hg
    split at h
    · split at h
      · rename_i s2 heq
        cases h
        intro s hs
        rcases List.mem_or_eq_of_mem_set hs with h1 | h2
        · exact Or.inl h1
        · rw [h2]
          exact Or.inr (Or.inl (complete_status step o.to_dict s2 heq))
      · cases h
    · split at h
      · rename_i s2 can_retry heq
        dsimp only at h
        split at h
        · cases h
          intro s hs
          rcases List.mem_or_eq_of_mem_set hs with h1 | h2
          · exact Or.inl h1
          · rw [h2]
            exact Or.inr (Or.inr (fail_status step _ s2 can_retry heq))
        · cases h
          intro s hs
          rcases List.mem_or_eq_of_mem_set hs with h1 | h2
          · exact Or.inl h1
          · rw [h2]
            exact Or.inr (Or.inr (fail_status step _ s2 can_retry heq))
      · cases h

/-- Every step of the plan returned by revise_plan is either a step of
the input plan, or PENDING, or SKIPPED with a risk level other than
HIGH. -/
theorem revise_plan_steps (plan : Plan) (state : PlanState)
    (o : ControllerOutcome) (p2 : Plan) (st2 : PlanState)
    (h : PlannerV2.revise_plan plan state o = .ok (p2, st2)) :
    ∀ s ∈ p2.steps, s ∈ plan.steps ∨ s.status = .PENDING ∨
      (s.status = .SKIPPED ∧ s.risk_level ≠ .HIGH) := by
  unfold PlannerV2.revise_plan at h
  split at h
  · cases h
    intro s hs
    exact Or.inl hs
  · rename_i step hg
    split at h
    · split at h
      · rename_i s2 heq
        cases h
        intro s hs
        rcases List.mem_or_eq_of_mem_set hs with h1 | h2
        · exact Or.inl h1
        · rw [h2]
          exact Or.inr (Or.inl (reset_status step s2 heq))
      · cases h
    · rename_i hfc1
      split at h
      · rename_i hcond
        split at h
        · rename_i s2 heq
          cases h
          intro s hs
          rcases List.mem_or_eq_of_mem_set hs with h1 | h2
          · exact Or.inl h1
          · rw [h2]
            refine Or.inr (Or.inr ⟨(skip_status step _ s2 heq).1, ?_⟩)
            rw [(skip_status step _ s2 heq).2]
            have hskip : StepLifecycle.can_skip step = true := by
              have hc2 := hcond
              simp only [Bool.and_eq_true] at hc2
              exact hc2.2
            unfold StepLifecycle.can_skip at hskip
            exact bne_iff_ne.mp hskip
        · cases h
      · cases h
        intro s hs
        exact Or.inl hs

/-- Claim C6: can_skip holds exactly for steps whose risk level is not
HIGH, and no engine operation (next_step, update_state, revise_plan)
ever transitions a HIGH risk step to SKIPPED: if no HIGH risk step of
the plan is SKIPPED, none is after the operation, whatever the failure
counts. -/
theorem C6_skip_safety :
    (∀ step : Step, StepLifecycle.can_skip step = true ↔ step.risk_level ≠ .HIGH) ∧
    (∀ (plan : Plan) (state : PlanState),
      (∀ s ∈ plan.steps, s.risk_level = .HIGH → s.status ≠ .SKIPPED) →
      (∀ r p2 st2, PlannerV2.next_step plan state = .ok (r, p2, st2) →
         ∀ s ∈ p2.steps, s.risk_level = .HIGH → s.status ≠ .SKIPPED) ∧
      (∀ o p2 st2, PlannerV2.update_state plan state o = .ok (p2, st2) →
         ∀ s ∈ p2.steps, s.risk_level = .HIGH → s.status ≠ .SKIPPED) ∧
      (∀ o p2 st2, PlannerV2.revise_plan plan state o = .ok (p2, st2) →
         ∀ s ∈ p2.steps, s.risk_level = .HIGH → s.status ≠ .SKIPPED)) := by
  constructor
  · intro step
    unfold StepLifecycle.can_skip
    exact bne_iff_ne
  · intro plan state hplan
    refine ⟨?_, ?_, ?_⟩
    · intro r p2 st2 h s hs hrisk
      rcases next_step_steps plan state r p2 st2 h s hs with h1 | h2
      · exact hplan s h1 hrisk
      · rw [h2]
        intro hcontra
        cases hcontra
    · intro o p2 st2 h s hs hrisk
      rcases update_state_steps plan state o p2 st2 h s hs with h1 | h2 | h3
      · exact hplan s h1 hrisk
      · rw [h2]
        intro hcontra
        cases hcontra
      · rw [h3]
        intro hcontra
        cases hcontra
    · intro o p2 st2 h s hs hrisk
      rcases revise_plan_steps plan state o p2 st2 h s hs with h1 | h2 | h3
      · exact hplan s h1 hrisk
      · rw [h2]
        intro hcontra
        cases hcontra
      · exact absurd hrisk h3.2

/-- Witness for C6: a concrete revision that does skip a twice failed
MED step; the hypothesis and the conclusion are checked on the concrete
plans. -/
theorem C6_skip_safety_witness :
    (∀ s ∈ c6_plan.steps, s.risk_level = .HIGH → s.status ≠ .SKIPPED) ∧
    PlannerV2.revise_plan c6_plan {} c6_fail = .ok c6_result ∧
    (∀ s ∈ c6_result.1.steps, s.risk_level = .HIGH → s.status ≠ .SKIPPED) :=
  ⟨by decide, rfl,
   (C6_skip_safety.2 c6_plan {} (by decide)).2.2 c6_fail c6_result.1 c6_result.2 rfl⟩

/-- Claim C9, counterexample: after saving one artifact for plan p and
one for plan pq, listing with the filter plan_id = p also returns the
artifact of plan pq, whose id merely starts with p; the filter does not
return only the artifacts of plan p. -/
theorem C9_counterexample :
    c9_final.map (fun l => PlanArtifactLog.list_artifacts l (some "p")) =
      .ok ["pq_20240102_000000", "p_20240101_000000"] ∧
    c9_final.map (fun l =>
      (PlanArtifactLog.load l "pq_20240102_000000").map PlanArtifact.plan_id) =
      .ok (some "pq") ∧
    "pq" ≠ "p" := by
  exact ⟨rfl, rfl, by decide⟩

/-- Claim C9 as amended: every artifact id generated by
record_plan_start has the form plan_id + "_" + timestamp;
list_artifacts returns the stored identifiers sorted descending in the
string order (most recent first within one plan, since the timestamp
component is sortable); the plan filter keeps exactly the identifiers
that start with the given plan_id, which includes every artifact of that
plan but returns only that plan when no other plan id extends the
queried one. -/
theorem C9_identifiers_and_listing :
    (∀ (log : PlanArtifactLog) (jd : JValue → String) (plan : Plan)
       (fp : String) (md : Option (List (String × JValue))) (ts now : String),
       (PlanArtifactLog.record_plan_start log jd plan fp md ts now).1 =
         plan.plan_id ++ "_" ++ ts) ∧
    (∀ (log : PlanArtifactLog) (pid : Option String),
       (PlanArtifactLog.list_artifacts log pid).Pairwise
         (fun a b => str_le b a = true)) ∧
    (∀ (log : PlanArtifactLog) (pid a : String),
       a ∈ PlanArtifactLog.list_artifacts log (some pid) ↔
         (a ∈ log.files.map (fun kv => kv.1) ∧ str_startsWith a pid = true)) := by
  refine ⟨fun _ _ _ _ _ _ _ => rfl, ?_, ?_⟩
  · intro log pid
    unfold PlanArtifactLog.list_artifacts
    exact List.pairwise_reverse.mpr (pairwise_sort_asc _)
  · intro log pid a
    unfold PlanArtifactLog.list_artifacts
    rw [List.mem_reverse, mem_sort_asc, List.mem_filter]

/-- Congruence for List.all under a pointwise equal predicate. -/
theorem all_congr_fun {α : Type} (l : List α) (p q : α → Bool)
    (h : ∀ a, p a = q a) : l.all p = l.all q := by
  rw [funext h]

/-- Setting the element right after a prefix. -/
theorem set_append_length {α : Type} :
    ∀ (l1 : List α) (x y : α) (l2 : List α),
      (l1 ++ x :: l2).set l1.length y = l1 ++ y :: l2 := by
  intro l1
  induction l1 with
  | nil => intro x y l2; rfl
  | cons a t ih =>
    intro x y l2
    rw [List.cons_append, List.length_cons, List.set_cons_succ, ih]
    rfl

/-- Reading the element right after a prefix. -/
theorem get_append_length {α : Type} :
    ∀ (l1 : List α) (x : α) (l2 : List α),
      (l1 ++ x :: l2).get? l1.length = some x := by
  intro l1
  induction l1 with
  | nil => intro x l2; rfl
  | cons a t ih =>
    intro x l2
    simpa using ih x l2

/-- Replacing a step at a position by one with the same id and the same
answer to the DONE test does not change whether the first step found
under an id is DONE. -/
theorem find_done_set :
    ∀ (l : List Step) (i : Nat) (step0 s2 : Step),
      l.get? i = some step0 → s2.step_id = step0.step_id →
      (s2.status == .DONE) = (step0.status == .DONE) →
      ∀ d, (match (l.set i s2).find? (fun s => s.step_id == d) with
            | some s => s.status == StepStatus.DONE
            | none => false) =
           (match l.find? (fun s => s.step_id == d) with
            | some s => s.status == StepStatus.DONE
            | none => false) := by
  intro l
  induction l with
  | nil =>
    intro i step0 s2 hget
    simp at hget
  | cons x xs ih =>
    intro i step0 s2 hget hid hstat d
    cases i with
    | zero =>
      have hx : x = step0 := by
        simpa using hget
      subst hx
      rw [List.set_cons_zero]
      cases hpd : (x.step_id == d) with
      | true =>
        have hpd2 : (s2.step_id == d) = true := by
          rw [hid]
          exact hpd
        rw [@List.find?_cons_of_pos Step (fun s => s.step_id == d) s2 xs hpd2,
          @List.find?_cons_of_pos Step (fun s => s.step_id == d) x xs hpd]
        exact hstat
      | false =>
        have hpd2 : (s2.step_id == d) = false := by
          rw [hid]
          exact hpd
        rw [@List.find?_cons_of_neg Step (fun s => s.step_id == d) s2 xs (by simp [hpd2]),
          @List.find?_cons_of_neg Step (fun s => s.step_id == d) x xs (by simp [hpd])]
    | succ j =>
      have hget2 : xs.get? j = some step0 := by
        simpa using hget
      rw [List.set_cons_succ]
      cases hpd : (x.step_id == d) with
      | true =>
        rw [@List.find?_cons_of_pos Step (fun s => s.step_id == d) x (xs.set j s2) hpd,
          @List.find?_cons_of_pos Step (fun s => s.step_id == d) x xs hpd]
      | false =>
        rw [@List.find?_cons_of_neg Step (fun s => s.step_id == d) x (xs.set j s2) (by simp [hpd]),
          @List.find?_cons_of_neg Step (fun s => s.step_id == d) x xs (by simp [hpd])]
        exact ih j step0 s2 hget2 hid hstat d

/-- dep_done is unchanged by such a replacement. -/
theorem dep_done_set (plan : Plan) (i : Nat) (step0 s2 : Step)
    (hget : plan.steps.get? i = some step0) (hid : s2.step_id = step0.step_id)
    (hstat : (s2.status == .DONE) = (step0.status == .DONE)) (d : String) :
    StepLifecycle.dep_done { plan with steps := plan.steps.set i s2 } d =
      StepLifecycle.dep_done plan d := by
  unfold StepLifecycle.dep_done Plan.get_step
  exact find_done_set plan.steps i step0 s2 hget hid hstat d

/-- The boolean part of can_activate is unchanged by such a
replacement. -/
theorem can_activate_set (plan : Plan) (i : Nat) (step0 s2 : Step)
    (hget : plan.steps.get? i = some step0) (hid : s2.step_id = step0.step_id)
    (hstat : (s2.status == .DONE) = (step0.status == .DONE)) (s : Step) :
    (StepLifecycle.can_activate s { plan with steps := plan.steps.set i s2 }).1 =
      (StepLifecycle.can_activate s plan).1 := by
  unfold StepLifecycle.can_activate
  have hall : s.dependencies.all
      (StepLifecycle.dep_done { plan with steps := plan.steps.set i s2 }) =
      s.dependencies.all (StepLifecycle.dep_done plan) :=
    all_congr_fun s.dependencies _ _
      (dep_done_set plan i step0 s2 hget hid hstat)
  rw [hall]

/-- scan_skips is unchanged by such a replacement. -/
theorem scan_skips_set (plan : Plan) (i : Nat) (step0 s2 : Step)
    (hget : plan.steps.get? i = some step0) (hid : s2.step_id = step0.step_id)
    (hstat : (s2.status == .DONE) = (step0.status == .DONE)) (s : Step) :
    scan_skips { plan with steps := plan.steps.set i s2 } s = scan_skips plan s := by
  unfold scan_skips
  rw [can_activate_set plan i step0 s2 hget hid hstat s]

/-- activate on a step satisfying can_activate. -/
theorem activate_of_can (step : Step) (plan : Plan)
    (h : (StepLifecycle.can_activate step plan).1 = true) :
    StepLifecycle.activate step plan = .ok { step with status := .ACTIVE } := by
  unfold StepLifecycle.activate
  rw [if_pos h]

/-- The next_step scan passes over a prefix of steps it skips. -/
theorem scan_skip_prefix (plan : Plan) (state : PlanState) :
    ∀ (l1 l2 : List Step) (i : Nat), (∀ s ∈ l1, scan_skips plan s = true) →
      PlannerV2.next_step_go plan state i (l1 ++ l2) =
      PlannerV2.next_step_go plan state (i + l1.length) l2 := by
  intro l1
  induction l1 with
  | nil =>
    intro l2 i _
    rfl
  | cons s t ih =>
    intro l2 i hall
    have hss : scan_skips plan s = true := hall s (List.mem_cons_self s t)
    have hrest : ∀ x ∈ t, scan_skips plan x = true :=
      fun x hx => hall x (List.mem_cons_of_mem s hx)
    have hidx : i + (s :: t).length = (i + 1) + t.length := by
      rw [List.length_cons]
      omega
    rw [hidx, List.cons_append]
    conv_lhs => unfold PlannerV2.next_step_go
    by_cases hp : (s.status == .PENDING) = true
    · have hca : (StepLifecycle.can_activate s plan).1 = false := by
        cases hc : (StepLifecycle.can_activate s plan).1 with
        | false => rfl
        | true =>
          unfold scan_skips at hss
          rw [hp, hc] at hss
          simp at hss
      simp only [hp, hca, reduceIte, Bool.false_eq_true]
      exact ih l2 (i + 1) hrest
    · have hp2 : (s.status == .PENDING) = false := by
        cases hb : (s.status == .PENDING) with
        | false => rfl
        | true => exact absurd hb hp
      have hna : (s.status == .ACTIVE) = false := by
        cases ha : (s.status == .ACTIVE) with
        | false => rfl
        | true =>
          unfold scan_skips at hss
          rw [hp2, ha] at hss
          simp at hss
      simp only [hp2, hna, reduceIte, Bool.false_eq_true]
      exact ih l2 (i + 1) hrest

/-- The scan returns an ACTIVE step it meets after a skipped prefix,
changing nothing. -/
theorem scan_returns_active (plan : Plan) (state : PlanState)
    (l1 l2 : List Step) (active : Step)
    (hh : state.halted = false) (hsteps : plan.steps = l1 ++ active :: l2)
    (hact : active.status = .ACTIVE)
    (hskips : ∀ s ∈ l1, scan_skips plan s = true) :
    PlannerV2.next_step plan state = .ok (some active, plan, state) := by
  unfold PlannerV2.next_step
  rw [hh]
  simp only [Bool.false_eq_true, if_false]
  rw [hsteps, scan_skip_prefix plan state l1 (active :: l2) 0 hskips]
  conv_lhs => unfold PlannerV2.next_step_go
  have h1 : (active.status == .PENDING) = false := by
    rw [hact]
    rfl
  have h2 : (active.status == .ACTIVE) = true := by
    rw [hact]
    rfl
  simp only [h1, h2, reduceIte, Bool.false_eq_true]

/-- Calling next_step on the output of a successful scan returns the
same output unchanged. -/
theorem next_step_go_idem (plan : Plan) (state : PlanState)
    (hh : state.halted = false) :
    ∀ (l l1 : List Step), plan.steps = l1 ++ l →
      (∀ s ∈ l1, scan_skips plan s = true) →
      ∀ out, PlannerV2.next_step_go plan state l1.length l = .ok out →
        PlannerV2.next_step out.2.1 out.2.2 = .ok out := by
  intro l
  induction l with
  | nil =>
    intro l1 hsteps hskips out h
    cases h
    unfold PlannerV2.next_step
    rw [hh]
    simp only [Bool.false_eq_true, if_false]
    rw [hsteps, scan_skip_prefix plan state l1 [] 0 hskips]
    rfl
  | cons step rest ih =>
    intro l1 hsteps hskips out h
    unfold PlannerV2.next_step_go at h
    by_cases hp : (step.status == .PENDING) = true
    · simp only [hp, reduceIte] at h
      by_cases hca : (StepLifecycle.can_activate step plan).1 = true
      · simp only [hca, reduceIte] at h
        rw [activate_of_can step plan hca] at h
        cases h
        have hget : plan.steps.get? l1.length = some step := by
          rw [hsteps]
          exact get_append_length l1 step rest
        have hps : step.status = .PENDING := by
          simpa using hp
        have hstat : (({ step with status := .ACTIVE } : Step).status == StepStatus.DONE) =
            (step.status == StepStatus.DONE) := by
          rw [hps]
          rfl
        have hskips2 : ∀ s ∈ l1, scan_skips { plan with steps := plan.steps.set l1.length ({ step with status := StepStatus.ACTIVE }) } s = true := by
          intro s hs
          rw [scan_skips_set plan l1.length step ({ step with status := StepStatus.ACTIVE }) hget rfl hstat s]
          exact hskips s hs
        have hsteps2 : ({ plan with steps := plan.steps.set l1.length ({ step with status := StepStatus.ACTIVE }) } : Plan).steps = l1 ++ ({ step with status := StepStatus.ACTIVE }) :: rest := by
          show plan.steps.set l1.length _ = _
          rw [hsteps]
          exact set_append_length l1 step ({ step with status := StepStatus.ACTIVE }) rest
        exact scan_returns_active _ _ l1 rest _ hh hsteps2 rfl hskips2
      · have hca2 : (StepLifecycle.can_activate step plan).1 = false := by
          cases hc : (StepLifecycle.can_activate step plan).1 with
          | false => rfl
          | true => exact absurd hc hca
        simp only [hca2, Bool.false_eq_true, reduceIte] at h
        have hsteps2 : plan.steps = (l1 ++ [step]) ++ rest := by
          rw [hsteps, List.append_assoc]
          rfl
        have hskips2 : ∀ s ∈ l1 ++ [step], scan_skips plan s = true := by
          intro s hs
          rcases List.mem_append.mp hs with h1 | h2
          · exact hskips s h1
          · have hs2 : s = step := by
              simpa using h2
            rw [hs2]
            unfold scan_skips
            rw [hp, hca2]
            rfl
        have hlen : (l1 ++ [step]).length = l1.length + 1 := by
          simp
        rw [← hlen] at h
        exact ih (l1 ++ [step]) hsteps2 hskips2 out h
    · have hp2 : (step.status == .PENDING) = false := by
        cases hb : (step.status == .PENDING) with
        | false => rfl
        | true => exact absurd hb hp
      simp only [hp2, Bool.false_eq_true, reduceIte] at h
      by_cases hact : (step.status == .ACTIVE) = true
      · simp only [hact, reduceIte] at h
        cases h
        exact scan_returns_active plan state l1 rest step hh hsteps
          (by simpa using hact) hskips
      · have hact2 : (step.status == .ACTIVE) = false := by
          cases hb : (step.status == .ACTIVE) with
          | false => rfl
          | true => exact absurd hb hact
        simp only [hact2, Bool.false_eq_true, reduceIte] at h
        have hsteps2 : plan.steps = (l1 ++ [step]) ++ rest := by
          rw [hsteps, List.append_assoc]
          rfl
        have hskips2 : ∀ s ∈ l1 ++ [step], scan_skips plan s = true := by
          intro s hs
          rcases List.mem_append.mp hs with h1 | h2
          · exact hskips s h1
          · have hs2 : s = step := by
              simpa using h2
            rw [hs2]
            unfold scan_skips
            rw [hp2, hact2]
            rfl
        have hlen : (l1 ++ [step]).length = l1.length + 1 := by
          simp
        rw [← hlen] at h
        exact ih (l1 ++ [step]) hsteps2 hskips2 out h

/-- Claim C1 as amended: whenever the ACTIVE step precedes, in plan list
order, every other actionable step (every earlier step is neither ACTIVE
nor an activatable PENDING step), next_step returns that ACTIVE step and
changes nothing; and in every case two consecutive next_step calls with
no intervening update_state return the same result, step, plan and state
alike, so re-entrant dispatch is idempotent. -/
theorem C1_single_in_flight :
    (∀ (plan : Plan) (state : PlanState) (l1 l2 : List Step) (active : Step),
       state.halted = false →
       plan.steps = l1 ++ active :: l2 →
       active.status = .ACTIVE →
       (∀ s ∈ l1, scan_skips plan s = true) →
       PlannerV2.next_step plan state = .ok (some active, plan, state)) ∧
    (∀ (plan : Plan) (state : PlanState) (out : Option Step × Plan × PlanState),
       PlannerV2.next_step plan state = .ok out →
       PlannerV2.next_step out.2.1 out.2.2 = .ok out) := by
  constructor
  · exact fun plan state l1 l2 active hh hsteps hact hskips =>
      scan_returns_active plan state l1 l2 active hh hsteps hact hskips
  · intro plan state out h
    unfold PlannerV2.next_step at h
    split at h
    · cases h
      rename_i hhalt
      unfold PlannerV2.next_step
      rw [if_pos hhalt]
    · rename_i hhalt
      have hh : state.halted = false := by
        cases hb : state.halted with
        | false => rfl
        | true => exact absurd hb hhalt
      exact next_step_go_idem plan state hh plan.steps [] rfl
        (by intro s hs; cases hs) out h

/-- Witness for C1 at a concrete plan whose ACTIVE step follows only a
DONE step. -/
theorem C1_single_in_flight_witness :
    (({} : PlanState).halted = false ∧ c1w_plan.steps = [c1w_done] ++ c1w_active :: [] ∧
     c1w_active.status = .ACTIVE ∧ (∀ s ∈ [c1w_done], scan_skips c1w_plan s = true)) ∧
    PlannerV2.next_step c1w_plan {} = .ok (some c1w_active, c1w_plan, {}) ∧
    PlannerV2.next_step c1w_plan {} = .ok (some c1w_active, c1w_plan, {}) :=
  ⟨⟨rfl, rfl, rfl, by decide⟩,
   C1_single_in_flight.1 c1w_plan {} [c1w_done] [] c1w_active rfl rfl rfl (by decide),
   C1_single_in_flight.2 c1w_plan {} (some c1w_active, c1w_plan, {}) rfl⟩

/-- Claim C1, counterexample: a plan in which a dependency free PENDING
step precedes an ACTIVE step; the state is not halted and a step is
ACTIVE, yet next_step does not return the ACTIVE step: it activates and
returns the PENDING one, leaving two ACTIVE steps. -/
theorem C1_counterexample :
    c1_plan.steps.any (fun s => s.status == .ACTIVE) = true ∧
    ({} : PlanState).halted = false ∧
    (PlannerV2.next_step c1_plan {}).map (fun r =>
      (r.1.map Step.step_id, r.2.1.steps.countP (fun s => s.status == .ACTIVE))) =
      .ok (some "p", 2) := by
  exact ⟨rfl, rfl, rfl⟩

end RFSN
